import Mathlib

/-!
Verification development for the Voice Web Interaction backend.

Part 1 embeds the configuration module (config/index.js) and the health
endpoints (server.js, healthcheck.js) as executable Lean definitions.
Part 2 models the intent-resolution core (resolver, fallback parser,
normalizer) from the specification, since that code is not part of the
sources here (only its documentation and callers are).

JavaScript-value conventions used throughout the embedding:
an environment variable is an `Option String` (`none` = undefined);
string truthiness is `s` being nonempty; `parseInt` is modelled with its
leading-prefix semantics (whitespace skip, optional sign, 0x hex prefix).
The modelled whitespace set is space, tab, newline, carriage return.
-/

namespace VoiceWeb

/-- Whitespace predicate used to model JavaScript trimming and the
leading-whitespace skip of parseInt. -/
def wsChar (c : Char) : Bool :=
  c = ' ' || c = '\t' || c = '\n' || c = '\r'

/-- Model of JavaScript `value.trim() === ""`: the string holds only
whitespace characters. -/
def jsBlank (s : String) : Bool :=
  s.data.all wsChar

/-- Numeric value of a character as a digit in the given radix, if valid.
Decimal digits occupy codes 48-57, lowercase hex letters 97-102, and
uppercase hex letters 65-70. -/
def digitVal (radix : Nat) (c : Char) : Option Nat :=
  let n := c.toNat
  let v : Option Nat :=
    if 48 ≤ n ∧ n ≤ 57 then some (n - 48)
    else if 97 ≤ n ∧ n ≤ 102 then some (n - 87)
    else if 65 ≤ n ∧ n ≤ 70 then some (n - 55)
    else none
  match v with
  | some d => if d < radix then some d else none
  | none => none

/-- Accumulate the longest leading run of digits in the given radix. -/
def parseDigitsAux (radix : Nat) : List Char → Nat → Nat
  | [], acc => acc
  | c :: rest, acc =>
    match digitVal radix c with
    | some d => parseDigitsAux radix rest (acc * radix + d)
    | none => acc

/-- Parse a nonempty leading run of digits in the given radix;
`none` when the first character is not a digit. -/
def parseDigits (radix : Nat) : List Char → Option Nat
  | [] => none
  | c :: rest =>
    match digitVal radix c with
    | some d => some (parseDigitsAux radix rest d)
    | none => none

/-- Model of JavaScript `parseInt(value)` with no explicit radix:
skip leading whitespace, take an optional sign, use radix 16 after a
`0x`/`0X` prefix and radix 10 otherwise, parse the longest digit prefix,
and return `none` for NaN (no digits). Trailing garbage is ignored. -/
def jsParseInt (s : String) : Option Int :=
  let cs := s.data.dropWhile wsChar
  let (sign, cs₂) : Int × List Char :=
    match cs with
    | '+' :: r => (1, r)
    | '-' :: r => (-1, r)
    | _ => (1, cs)
  let digits : Option Nat :=
    match cs₂ with
    | '0' :: 'x' :: r => parseDigits 16 r
    | '0' :: 'X' :: r => parseDigits 16 r
    | _ => parseDigits 10 cs₂
  match digits with
  | some n => some (sign * (n : Int))
  | none => none

/-- Truthiness of an optional string value, as JavaScript sees it:
`undefined`/`null` and the empty string are falsy. -/
def jsTruthyOpt (v : Option String) : Bool :=
  match v with
  | none => false
  | some s => s ≠ ""

/-- Model of `process.env.X || defaultString`. -/
def jsOrElseStr (v : Option String) (d : String) : String :=
  match v with
  | none => d
  | some s => if s = "" then d else s

/-- Model of `process.env.X || null`: collapses undefined and the empty
string to `none`. -/
def jsOrNull (v : Option String) : Option String :=
  match v with
  | none => none
  | some s => if s = "" then none else some s

/-- Model of `parseInt(process.env.X) || defaultNumber`: NaN and 0 are
falsy, so both fall back to the default. -/
def jsParseIntOr (v : Option String) (d : Int) : Int :=
  match v with
  | none => d
  | some s =>
    match jsParseInt s with
    | none => d
    | some n => if n = 0 then d else n

/-! ## Environment and configuration (config/index.js) -/

/-- Process environment as read by config/index.js: one optional string
per environment variable the module references. -/
structure Env where
  GROQ_API_KEY : Option String := none
  GROQ_BASE_URL : Option String := none
  GROQ_MODEL : Option String := none
  GROQ_TIMEOUT : Option String := none
  OPENAI_API_KEY : Option String := none
  OPENAI_BASE_URL : Option String := none
  OPENAI_MODEL : Option String := none
  OPENAI_TIMEOUT : Option String := none
  ELEVENLABS_API_KEY : Option String := none
  ELEVENLABS_BASE_URL : Option String := none
  ELEVENLABS_DEFAULT_VOICE : Option String := none
  ELEVENLABS_TIMEOUT : Option String := none
  WEB_SEARCH_API_KEY : Option String := none
  WEB_SEARCH_PROVIDER : Option String := none
  WEB_SEARCH_TIMEOUT : Option String := none
  PORT : Option String := none
  HOST : Option String := none
  NODE_ENV : Option String := none
  CORS_ORIGIN : Option String := none
  CORS_CREDENTIALS : Option String := none
  RATE_LIMIT_WINDOW_MS : Option String := none
  RATE_LIMIT_MAX : Option String := none
  LOG_LEVEL : Option String := none
  LOG_FORMAT : Option String := none
  ENABLE_FALLBACK : Option String := none
  ANALYTICS_ENABLED : Option String := none
  DEBUG_MODE : Option String := none
  deriving DecidableEq

/-- Presence test of validateEnvironment: a variable counts as provided
exactly when it is defined and not blank
(the code path `if (!value || value.trim() === "")`). -/
def envVarPresent (v : Option String) : Bool :=
  match v with
  | none => false
  | some s => !(jsBlank s)

/-- Format check for GROQ_API_KEY in validateEnvVarFormat: a value shorter
than 20 characters throws a ConfigurationError; the gsk_ prefix check only
warns and is not modelled. -/
def groqFormatCheck (value : String) : Except String Unit :=
  if value.length < 20 then
    .error "GROQ_API_KEY appears to be too short. Please verify your API key."
  else
    .ok ()

/-- Format check for PORT in validateEnvVarFormat:
`parseInt(value)` must yield a number in [1, 65535], else a
ConfigurationError is thrown. -/
def portFormatCheck (value : String) : Except String Unit :=
  match jsParseInt value with
  | none => .error ("PORT must be a valid port number between 1 and 65535, got: " ++ value)
  | some p =>
    if p < 1 ∨ p > 65535 then
      .error ("PORT must be a valid port number between 1 and 65535, got: " ++ value)
    else
      .ok ()

/-- Error message assembled by createMissingEnvErrorMessage when
GROQ_API_KEY, the only required variable, is missing. -/
def missingGroqMessage : String :=
  "CONFIGURATION ERROR: Missing required environment variables: GROQ_API_KEY"

/-- Embedding of Config.validateEnvironment. The variables are visited in
insertion order (GROQ, OPENAI, ELEVENLABS, WEB_SEARCH, PORT, NODE_ENV);
format checks on present values may throw during the iteration, and the
missing-required error is thrown after it. OPENAI and WEB_SEARCH have no
format checks; ELEVENLABS and NODE_ENV checks only warn, so neither is
modelled as an error. Console warnings are not modelled. -/
def validateEnvironment (e : Env) : Except String Unit :=
  match (if envVarPresent e.GROQ_API_KEY then
            groqFormatCheck (e.GROQ_API_KEY.getD "")
          else .ok ()) with
  | .error m => .error m
  | .ok () =>
    match (if envVarPresent e.PORT then
              portFormatCheck (e.PORT.getD "")
            else .ok ()) with
    | .error m => .error m
    | .ok () =>
      if envVarPresent e.GROQ_API_KEY then .ok ()
      else .error missingGroqMessage

/-- CORS origin value: `process.env.CORS_ORIGIN || true` is either the
configured string or the boolean true. -/
inductive CorsOriginVal where
  | str (s : String)
  | allOrigins
  deriving DecidableEq

/-- Groq section of the loaded configuration. -/
structure GroqSection where
  apiKey : Option String
  baseUrl : String
  model : String
  timeout : Int
  deriving DecidableEq

/-- OpenAI section of the loaded configuration. -/
structure OpenAiSection where
  apiKey : Option String
  baseUrl : String
  model : String
  timeout : Int
  deriving DecidableEq

/-- ElevenLabs section of the loaded configuration. -/
structure ElevenLabsSection where
  apiKey : Option String
  baseUrl : String
  defaultVoice : String
  timeout : Int
  deriving DecidableEq

/-- Web-search section of the loaded configuration. -/
structure WebSearchSection where
  apiKey : Option String
  provider : String
  timeout : Int
  deriving DecidableEq

/-- CORS subsection of the server configuration. -/
structure CorsSection where
  origin : CorsOriginVal
  credentials : Bool
  deriving DecidableEq

/-- Rate-limit subsection of the server configuration. -/
structure RateLimitSection where
  windowMs : Int
  maxRequests : Int
  deriving DecidableEq

/-- Server section of the loaded configuration. -/
structure ServerSection where
  port : Int
  host : String
  environment : String
  cors : CorsSection
  rateLimit : RateLimitSection
  deriving DecidableEq

/-- Logging section of the loaded configuration. -/
structure LoggingSection where
  level : String
  format : String
  deriving DecidableEq

/-- Feature flags of the loaded configuration. -/
structure FeaturesSection where
  fallbackMode : Bool
  analyticsEnabled : Bool
  debugMode : Bool
  deriving DecidableEq

/-- The configuration object built by Config.loadConfiguration. -/
structure Config where
  groq : GroqSection
  openai : OpenAiSection
  elevenlabs : ElevenLabsSection
  webSearch : WebSearchSection
  server : ServerSection
  logging : LoggingSection
  features : FeaturesSection
  deriving DecidableEq

/-- Embedding of Config.loadConfiguration: every field mirrors the
corresponding `process.env` expression of the source, including the
JavaScript falsiness of empty strings, NaN and 0 in the `||` defaults. -/
def loadConfiguration (e : Env) : Config :=
  { groq :=
      { apiKey := e.GROQ_API_KEY
        baseUrl := jsOrElseStr e.GROQ_BASE_URL "https://api.groq.com/openai/v1"
        model := jsOrElseStr e.GROQ_MODEL "llama3-8b-8192"
        timeout := jsParseIntOr e.GROQ_TIMEOUT 30000 }
    openai :=
      { apiKey := jsOrNull e.OPENAI_API_KEY
        baseUrl := jsOrElseStr e.OPENAI_BASE_URL "https://api.openai.com/v1"
        model := jsOrElseStr e.OPENAI_MODEL "gpt-3.5-turbo"
        timeout := jsParseIntOr e.OPENAI_TIMEOUT 30000 }
    elevenlabs :=
      { apiKey := jsOrNull e.ELEVENLABS_API_KEY
        baseUrl := jsOrElseStr e.ELEVENLABS_BASE_URL "https://api.elevenlabs.io/v1"
        defaultVoice := jsOrElseStr e.ELEVENLABS_DEFAULT_VOICE "rachel"
        timeout := jsParseIntOr e.ELEVENLABS_TIMEOUT 30000 }
    webSearch :=
      { apiKey := jsOrNull e.WEB_SEARCH_API_KEY
        provider := jsOrElseStr e.WEB_SEARCH_PROVIDER "google"
        timeout := jsParseIntOr e.WEB_SEARCH_TIMEOUT 10000 }
    server :=
      { port := jsParseIntOr e.PORT 3000
        host := jsOrElseStr e.HOST "localhost"
        environment := jsOrElseStr e.NODE_ENV "development"
        cors :=
          { origin :=
              match e.CORS_ORIGIN with
              | none => .allOrigins
              | some s => if s = "" then .allOrigins else .str s
            credentials := e.CORS_CREDENTIALS = some "true" }
        rateLimit :=
          { windowMs := jsParseIntOr e.RATE_LIMIT_WINDOW_MS 900000
            maxRequests := jsParseIntOr e.RATE_LIMIT_MAX 1000 } }
    logging :=
      { level := jsOrElseStr e.LOG_LEVEL "info"
        format := jsOrElseStr e.LOG_FORMAT "combined" }
    features :=
      { fallbackMode := e.ENABLE_FALLBACK ≠ some "false"
        analyticsEnabled := e.ANALYTICS_ENABLED = some "true"
        debugMode := e.DEBUG_MODE = some "true" } }

/-- Embedding of the Config constructor: validateEnvironment first, then
loadConfiguration; a thrown ConfigurationError is the `.error` case. -/
def mkConfig (e : Env) : Except String Config :=
  match validateEnvironment e with
  | .error m => .error m
  | .ok () => .ok (loadConfiguration e)

/-- Embedding of the module-level getConfig singleton: the cached instance
(`configInstance`) is the explicit state; a fresh construction happens only
when the cache is empty. -/
def getConfig (st : Option Config) (e : Env) :
    Except String (Config × Option Config) :=
  match st with
  | some c => .ok (c, some c)
  | none =>
    match mkConfig e with
    | .ok c => .ok (c, some c)
    | .error m => .error m

/-- Embedding of Config.hasGroqApiKey: double-negation truthiness. -/
def hasGroqApiKey (c : Config) : Bool :=
  jsTruthyOpt c.groq.apiKey

/-- Embedding of Config.hasOpenAiApiKey. -/
def hasOpenAiApiKey (c : Config) : Bool :=
  jsTruthyOpt c.openai.apiKey

/-- Embedding of Config.hasElevenLabsApiKey. -/
def hasElevenLabsApiKey (c : Config) : Bool :=
  jsTruthyOpt c.elevenlabs.apiKey

/-- Embedding of Config.hasWebSearchApiKey. -/
def hasWebSearchApiKey (c : Config) : Bool :=
  jsTruthyOpt c.webSearch.apiKey

/-- The constant that getSanitizedConfig substitutes for key material. -/
def redactedMark : String := "***REDACTED***"

/-- Embedding of Config.getSanitizedConfig: a deep copy (the identity on
this pure data model, since every field is JSON-representable) in which
each truthy apiKey field is replaced by the redaction constant; falsy
apiKey fields (null or empty) are left as they are. -/
def getSanitizedConfig (c : Config) : Config :=
  { c with
    groq :=
      { c.groq with
        apiKey :=
          if jsTruthyOpt c.groq.apiKey then some redactedMark
          else c.groq.apiKey }
    openai :=
      { c.openai with
        apiKey :=
          if jsTruthyOpt c.openai.apiKey then some redactedMark
          else c.openai.apiKey }
    elevenlabs :=
      { c.elevenlabs with
        apiKey :=
          if jsTruthyOpt c.elevenlabs.apiKey then some redactedMark
          else c.elevenlabs.apiKey }
    webSearch :=
      { c.webSearch with
        apiKey :=
          if jsTruthyOpt c.webSearch.apiKey then some redactedMark
          else c.webSearch.apiKey } }

/-- Projection of a configuration onto everything except the four apiKey
fields, used to state that sanitization touches nothing else. -/
def stripKeys (c : Config) : Config :=
  { c with
    groq := { c.groq with apiKey := none }
    openai := { c.openai with apiKey := none }
    elevenlabs := { c.elevenlabs with apiKey := none }
    webSearch := { c.webSearch with apiKey := none } }

/-! ## Health endpoints (server.js and healthcheck.js) -/

/-- Services block of the basic /health response. -/
structure HealthServices where
  groq : String
  elevenlabs : String
  webSearch : String
  deriving DecidableEq

/-- Response of the basic GET /health handler (status line and the
configuration-dependent informational fields). -/
structure HealthResponse where
  httpStatus : Nat
  status : String
  environment : String
  services : HealthServices
  fallbackMode : Bool
  debugMode : Bool
  deriving DecidableEq

/-- Embedding of the GET /health handler of server.js: `res.json` with the
default 200 status and a body whose `status` field is the literal
"healthy"; only the informational fields depend on the configuration. -/
def healthHandler (c : Config) : HealthResponse :=
  { httpStatus := 200
    status := "healthy"
    environment := c.server.environment
    services :=
      { groq := if hasGroqApiKey c then "configured" else "missing"
        elevenlabs := if hasElevenLabsApiKey c then "configured" else "not configured"
        webSearch := if hasWebSearchApiKey c then "configured" else "not configured" }
    fallbackMode := c.features.fallbackMode
    debugMode := c.features.debugMode }

/-- Embedding of the decision in healthcheck.js: the Docker health check
exits 0 exactly when the HTTP status is 200 and the parsed body has
`status === "healthy"`, and 1 otherwise. -/
def healthcheckExitCode (statusCode : Nat) (bodyStatus : String) : Nat :=
  if statusCode = 200 ∧ bodyStatus = "healthy" then 0 else 1

/-- Result of the GET /health/api handler restricted to the fields the
claims are about: whether a Groq call was attempted, the groq service
status string, the overall health flag and the HTTP status code. -/
structure HealthApiResult where
  groqCalled : Bool
  groqStatus : String
  overallHealthy : Bool
  httpStatus : Nat
  deriving DecidableEq

/-- Embedding of the GET /health/api handler of server.js: the Groq test
request is made only inside `if (config.hasGroqApiKey())`; without a key
the status becomes "missing_api_key" with no call and no exception, and
the overall state is unhealthy (503). The outcome of an attempted call is
an oracle parameter. -/
def healthApiHandler (c : Config) (groqOutcome : Except String Unit) :
    HealthApiResult :=
  if hasGroqApiKey c then
    match groqOutcome with
    | .ok () => { groqCalled := true, groqStatus := "healthy", overallHealthy := true, httpStatus := 200 }
    | .error _ => { groqCalled := true, groqStatus := "error", overallHealthy := false, httpStatus := 503 }
  else
    { groqCalled := false, groqStatus := "missing_api_key", overallHealthy := false, httpStatus := 503 }

/-! ## Intent-resolution core

Modelled from the spec: the fallback parser, intent normalizer and intent
resolver of the intent-resolution pipeline are not among the sources here
(only their documentation and HTTP callers are), so the definitions below
follow the specification text, sections 3, 4.1 to 4.4 and 8. -/

/-- Modelled from the spec: the action verbs of the closed verb set of
section 3, without the terminal "unknown". -/
def actionVerbs : List String :=
  ["scroll", "click", "fill", "search", "navigate"]

/-- Modelled from the spec: the closed verb set of section 3, including
"unknown" as the terminal action. -/
def closedVerbSet : List String :=
  actionVerbs ++ ["unknown"]

/-- Modelled from the spec: the canonical Intent of section 3. Confidence
is a rational in place of the floating score. -/
structure Intent where
  action : String
  target : Option String
  parameters : List (String × String)
  confidence : Rat
  providerUsed : String
  rawText : String
  deriving DecidableEq

/-- Modelled from the spec: the session context of section 3, consumed
read-only by the resolver. -/
structure Context where
  sessionId : String := ""
  url : String := ""
  availableElements : List String := []
  deriving DecidableEq

/-- Modelled from the spec: the provenance of a result, section 3 and the
glossary (primary provider, secondary provider, fallback parser). -/
inductive Provenance where
  | primary
  | secondary
  | fallback
  deriving DecidableEq

/-- The observability string stored in providerUsed for each stage. -/
def provString : Provenance → String
  | .primary => "primary"
  | .secondary => "secondary"
  | .fallback => "fallback"

/-- Pre-normalization parsed fields: an action with optional target,
parameters and an optional confidence, as produced by a structured decode
or by a fallback-parser rule. -/
structure RawParsed where
  action : String
  target : Option String := none
  parameters : List (String × String) := []
  confidence : Option Rat := none
  deriving DecidableEq

/-- Modelled from the spec: a provider response as the normalizer sees it,
section 4.3 - either decodable into structured fields or free text to be
scavenged for an action keyword. JSON syntax itself is abstracted into
this dichotomy. -/
inductive RawResponse where
  | structured (p : RawParsed)
  | text (s : String)
  deriving DecidableEq

/-- Modelled from the spec: the provider error taxonomy of sections 4.2
and 7. -/
inductive ProviderErrorKind where
  | timeout
  | authError
  | rateLimited
  | serverError
  | networkError
  deriving DecidableEq

/-- Modelled from the spec: outcome of one provider call - success with a
raw response, or a classified ProviderError. -/
inductive ProviderOutcome where
  | success (response : RawResponse)
  | failure (e : ProviderErrorKind)
  deriving DecidableEq

/-- Modelled from the spec: the independent configuration of one provider,
section 4.2 (endpoint, model name, credential, timeout). -/
structure ProviderConfig where
  credential : Option String
  endpoint : String := ""
  model : String := ""
  timeoutMs : Nat := 30000
  deriving DecidableEq

/-- Oracle environment for one resolution: each provider configuration
together with the outcome its call would produce if attempted. -/
structure ResolverEnv where
  primary : ProviderConfig
  secondary : ProviderConfig
  primaryOutcome : ProviderOutcome
  secondaryOutcome : ProviderOutcome
  deriving DecidableEq

/-! ### Text primitives of the fallback parser -/

/-- Trim the modelled whitespace from both ends of a character list. -/
def trimChars (cs : List Char) : List Char :=
  ((cs.dropWhile wsChar).reverse.dropWhile wsChar).reverse

/-- Lower-cased, trimmed character view of the input, the form the
fallback-parser rules are evaluated against (spec section 4.1). -/
def normText (s : String) : List Char :=
  trimChars (s.data.map Char.toLower)

/-- Whether the first list is a prefix of the second. -/
def startsWithChars : List Char → List Char → Bool
  | [], _ => true
  | _ :: _, [] => false
  | p :: ps, c :: cs => p == c && startsWithChars ps cs

/-- Split a list at the first occurrence of a nonempty pattern, returning
the part before and the part after it, or `none` when absent. -/
def splitFirst (pat : List Char) : List Char → Option (List Char × List Char)
  | [] => if pat.isEmpty then some ([], []) else none
  | c :: cs =>
    if startsWithChars pat (c :: cs) then
      some ([], (c :: cs).drop pat.length)
    else
      match splitFirst pat cs with
      | some (pre, post) => some (c :: pre, post)
      | none => none

/-- Substring containment over character lists. -/
def containsSeq (pat t : List Char) : Bool :=
  (splitFirst pat t).isSome

/-! ### Fallback parser (spec section 4.1) -/

/-- Guard of the fill rule: the lower-cased trimmed input starts with
"fill " and the remainder holds " with ". -/
def fillRuleMatches (t : List Char) : Bool :=
  startsWithChars "fill ".data t && containsSeq " with ".data (t.drop 5)

/-- Modelled from the spec: the ordered rule table of the fallback parser,
section 4.1. The specific fill-X-with-Y rule precedes every generic
keyword rule (its precedence over click is the one ordering the spec
fixes); empty or whitespace-only input short-circuits to unknown with
confidence 0, as does a failure of every rule. Matched rules leave the
confidence unset, for the normalizer to default. -/
def parseParts (s : String) : RawParsed :=
  let t := normText s
  if t.isEmpty then
    { action := "unknown", confidence := some 0 }
  else if fillRuleMatches t then
    match splitFirst " with ".data (t.drop 5) with
    | some (f, v) =>
      { action := "fill"
        parameters := [("field", String.mk (trimChars f)), ("value", String.mk (trimChars v))] }
    | none => { action := "unknown", confidence := some 0 }
  else if containsSeq "search for ".data t then
    match splitFirst "search for ".data t with
    | some (_, q) =>
      { action := "search", parameters := [("query", String.mk (trimChars q))] }
    | none => { action := "unknown", confidence := some 0 }
  else if startsWithChars "find ".data t then
    { action := "search", parameters := [("query", String.mk (trimChars (t.drop 5)))] }
  else if containsSeq "scroll".data t then
    let dir :=
      if containsSeq "up".data t then "up"
      else if containsSeq "top".data t then "top"
      else if containsSeq "bottom".data t then "bottom"
      else "down"
    { action := "scroll", parameters := [("direction", dir)] }
  else if containsSeq "go back".data t then
    { action := "navigate", parameters := [("direction", "back")] }
  else if containsSeq "refresh".data t then
    { action := "navigate", parameters := [("direction", "refresh")] }
  else if containsSeq "click".data t || containsSeq "press".data t then
    let tgt :=
      match splitFirst "click on ".data t with
      | some (_, r) => String.mk (trimChars r)
      | none => String.mk t
    { action := "click", target := some tgt }
  else
    { action := "unknown", confidence := some 0 }

/-! ### Intent normalizer (spec section 4.3) -/

/-- Clamp a confidence score into the closed interval [0, 1]. -/
def clamp01 (q : Rat) : Rat :=
  max 0 (min 1 q)

/-- Fallback default confidence 0.4, written as a raw rational literal so
that it evaluates inside the kernel. -/
def fallbackConfidence : Rat := ⟨2, 5, by norm_num, by norm_num⟩

/-- AI default confidence 0.8, written as a raw rational literal so that
it evaluates inside the kernel. -/
def aiConfidence : Rat := ⟨4, 5, by norm_num, by norm_num⟩

/-- Modelled from the spec: the provenance-dependent default confidence,
0.8 for AI-provided results and 0.4 for fallback results. -/
def defaultConfidence : Provenance → Rat
  | .fallback => fallbackConfidence
  | _ => aiConfidence

/-- Canonicalize parsed fields into a well-formed Intent: the action is
validated against the closed verb set (unrecognized verbs become
"unknown"), the confidence is clamped or defaulted by provenance, and the
provenance and original input are recorded. -/
def canonIntent (p : RawParsed) (prov : Provenance) (raw : String) : Intent :=
  { action := if p.action ∈ closedVerbSet then p.action else "unknown"
    target := p.target
    parameters := p.parameters
    confidence :=
      match p.confidence with
      | some c => clamp01 c
      | none => defaultConfidence prov
    providerUsed := provString prov
    rawText := raw }

/-- Best-effort keyword extraction of section 4.3: the first action verb
occurring anywhere in the lower-cased raw text. -/
def extractActionKeyword (t : List Char) : Option String :=
  actionVerbs.find? (fun v => containsSeq v.data t)

/-- Modelled from the spec: normalize(raw, provenance) of section 4.3.
A structured decode always canonicalizes; free text is scavenged for an
action keyword as the softer recovery; `none` is the NormalizationError,
raised only when decode and keyword extraction both fail. -/
def normalize (r : RawResponse) (prov : Provenance) (raw : String) :
    Option Intent :=
  match r with
  | .structured p => some (canonIntent p prov raw)
  | .text s =>
    match extractActionKeyword (normText s) with
    | some a => some (canonIntent { action := a } prov raw)
    | none => none

namespace FallbackParser

/-- Modelled from the spec: FallbackParser.parse of section 4.1 - the rule
table canonicalized with fallback provenance; total, never an error. -/
def parse (s : String) : Intent :=
  canonIntent (parseParts s) .fallback s

end FallbackParser

/-! ### Intent resolver (spec section 4.4) -/

/-- One provider stage: a call is attempted only when the credential is
present; an attempted call yields the oracle outcome, whose successful
response must still normalize. `none` covers provider unavailable,
provider error and normalization failure alike. -/
def attemptProvider (cfg : ProviderConfig) (outcome : ProviderOutcome)
    (prov : Provenance) (s : String) : Option Intent :=
  if cfg.credential.isSome then
    match outcome with
    | .success r => normalize r prov s
    | .failure _ => none
  else
    none

/-- Modelled from the spec: resolveIntent of sections 4.4 and 6 - the
TryPrimary, TrySecondary, TryFallback state machine with a single attempt
per provider in strict priority order and the deterministic parser as the
terminal stage. The second component is the trace of attempted stages, in
order, for the observability side effects of section 4.4. -/
def resolveIntent (s : String) (ctx : Context) (renv : ResolverEnv) :
    Intent × List String :=
  let _ := ctx
  let t1 : List String := if renv.primary.credential.isSome then ["primary"] else []
  match attemptProvider renv.primary renv.primaryOutcome .primary s with
  | some i => (i, t1)
  | none =>
    let t2 := t1 ++ (if renv.secondary.credential.isSome then ["secondary"] else [])
    match attemptProvider renv.secondary renv.secondaryOutcome .secondary s with
    | some i => (i, t2)
    | none => (FallbackParser.parse s, t2 ++ ["fallback"])

/-! ## Shared lemmas -/

/-- The two confidence constants, as ordinary rational literals. -/
theorem fallbackConfidence_eq : fallbackConfidence = 2/5 := by
  simp [fallbackConfidence, Rat.mk'_eq_divInt, Rat.divInt_eq_div]

/-- The AI default confidence as an ordinary rational literal. -/
theorem aiConfidence_eq : aiConfidence = 4/5 := by
  simp [aiConfidence, Rat.mk'_eq_divInt, Rat.divInt_eq_div]

/-- Clamping really lands in [0, 1]. -/
theorem clamp01_bounds (q : Rat) : 0 ≤ clamp01 q ∧ clamp01 q ≤ 1 := by
  constructor
  · exact le_max_left 0 (min 1 q)
  · exact max_le (by norm_num) (min_le_left 1 q)

/-- The provenance defaults land in [0, 1]. -/
theorem defaultConfidence_bounds (prov : Provenance) :
    0 ≤ defaultConfidence prov ∧ defaultConfidence prov ≤ 1 := by
  cases prov <;>
    simp [defaultConfidence, fallbackConfidence_eq, aiConfidence_eq] <;> norm_num

/-- A canonicalized intent always carries an action of the closed verb
set. -/
theorem canonIntent_action_mem (p : RawParsed) (prov : Provenance) (raw : String) :
    (canonIntent p prov raw).action ∈ closedVerbSet := by
  unfold canonIntent
  dsimp only
  by_cases h : p.action ∈ closedVerbSet
  · rw [if_pos h]; exact h
  · rw [if_neg h]; decide

/-- A canonicalized intent records the provenance in providerUsed. -/
theorem canonIntent_provider (p : RawParsed) (prov : Provenance) (raw : String) :
    (canonIntent p prov raw).providerUsed = provString prov := rfl

/-- A canonicalized intent always carries a confidence in [0, 1]. -/
theorem canonIntent_conf_bounds (p : RawParsed) (prov : Provenance) (raw : String) :
    0 ≤ (canonIntent p prov raw).confidence ∧ (canonIntent p prov raw).confidence ≤ 1 := by
  unfold canonIntent
  rcases p.confidence with _ | c
  · simpa using defaultConfidence_bounds prov
  · simpa using clamp01_bounds c

/-- Whatever the normalizer accepts is a canonicalized intent: action in
the closed set, provenance recorded, confidence in [0, 1]. -/
theorem normalize_some_props (r : RawResponse) (prov : Provenance) (raw : String)
    (i : Intent) (h : normalize r prov raw = some i) :
    i.action ∈ closedVerbSet ∧ i.providerUsed = provString prov
    ∧ 0 ≤ i.confidence ∧ i.confidence ≤ 1 := by
  rcases r with p | s
  · simp only [normalize] at h
    obtain rfl : canonIntent p prov raw = i := by simpa using h
    exact ⟨canonIntent_action_mem .., canonIntent_provider .., canonIntent_conf_bounds ..⟩
  · simp only [normalize] at h
    rcases hx : extractActionKeyword (normText s) with _ | a
    · rw [hx] at h; simp at h
    · rw [hx] at h
      obtain rfl : canonIntent { action := a } prov raw = i := by simpa using h
      exact ⟨canonIntent_action_mem .., canonIntent_provider .., canonIntent_conf_bounds ..⟩

/-- A provider attempt that produced an intent produced a normalized one. -/
theorem attemptProvider_some (cfg : ProviderConfig) (o : ProviderOutcome)
    (prov : Provenance) (s : String) (i : Intent)
    (h : attemptProvider cfg o prov s = some i) :
    ∃ r, o = .success r ∧ normalize r prov s = some i := by
  unfold attemptProvider at h
  by_cases hc : cfg.credential.isSome
  · rcases o with r | e
    · exact ⟨r, rfl, by simpa [hc] using h⟩
    · simp [hc] at h
  · simp [hc] at h

/-- The fallback parser leaves matched-rule confidence unset and gives the
unmatched case confidence 0. -/
theorem parseParts_confidence (s : String) :
    (parseParts s).confidence = none ∨ (parseParts s).confidence = some 0 := by
  unfold parseParts
  dsimp only
  repeat' split
  all_goals first
  | exact Or.inl rfl
  | exact Or.inr rfl

/-! ## Fixtures for witnesses -/

/-- Resolver oracle with no provider configured. -/
def renvUnconfigured : ResolverEnv :=
  { primary := { credential := none }
    secondary := { credential := none }
    primaryOutcome := .failure .timeout
    secondaryOutcome := .failure .timeout }

/-! ## Claim C1 -/

/-- C1: for every non-empty input string and every context, resolveIntent
returns exactly one Intent (the function is total into `Intent`, so it can
neither throw nor substitute an error object) whose action belongs to the
closed verb set, which already contains "unknown". -/
theorem resolveIntent_total_closed_action (s : String) (ctx : Context)
    (renv : ResolverEnv) (_hne : s ≠ "") :
    (resolveIntent s ctx renv).1.action ∈ closedVerbSet := by
  rcases h1 : attemptProvider renv.primary renv.primaryOutcome .primary s with _ | i
  · rcases h2 : attemptProvider renv.secondary renv.secondaryOutcome .secondary s with _ | j
    · simp only [resolveIntent, h1, h2]
      exact canonIntent_action_mem ..
    · simp only [resolveIntent, h1, h2]
      obtain ⟨r, -, hn⟩ := attemptProvider_some _ _ _ _ _ h2
      exact (normalize_some_props _ _ _ _ hn).1
  · simp only [resolveIntent, h1]
    obtain ⟨r, -, hn⟩ := attemptProvider_some _ _ _ _ _ h1
    exact (normalize_some_props _ _ _ _ hn).1

/-- C1 witness: the theorem applied at a concrete non-empty input with no
provider configured. -/
theorem resolveIntent_total_closed_action_witness :
    ("scroll down" : String) ≠ ""
    ∧ (resolveIntent "scroll down" {} renvUnconfigured).1.action ∈ closedVerbSet :=
  ⟨by decide, resolveIntent_total_closed_action "scroll down" {} renvUnconfigured (by decide)⟩

/-! ## Claim C2 -/

/-- C2: with both providers unconfigured the resolver output is exactly
the fallback parser output (the whole Intent, hence the same action,
parameters and confidence), with the trace showing only the fallback
stage; and the reachability caveat: the configuration loader refuses to
construct a configuration when GROQ_API_KEY, the primary credential, is
absent or blank. -/
theorem resolveIntent_fallback_guarantee :
    (∀ (s : String) (ctx : Context) (renv : ResolverEnv),
      renv.primary.credential = none → renv.secondary.credential = none →
      resolveIntent s ctx renv = (FallbackParser.parse s, ["fallback"]))
    ∧ (∀ e : Env, envVarPresent e.GROQ_API_KEY = false →
        (mkConfig e).isOk = false) := by
  constructor
  · intro s ctx renv h1 h2
    simp [resolveIntent, attemptProvider, h1, h2]
  · intro e he
    unfold mkConfig validateEnvironment
    rcases hport : (if envVarPresent e.PORT then portFormatCheck (e.PORT.getD "")
        else Except.ok ()) with m | u
    · simp [he, hport, Except.isOk, Except.toBool]
    · simp [he, hport, Except.isOk, Except.toBool]

/-- C2 witness: the theorem applied at a concrete input with the
unconfigured oracle, and at the empty environment. -/
theorem resolveIntent_fallback_guarantee_witness :
    resolveIntent "scroll down please" {} renvUnconfigured
      = (FallbackParser.parse "scroll down please", ["fallback"])
    ∧ (mkConfig {}).isOk = false :=
  ⟨resolveIntent_fallback_guarantee.1 "scroll down please" {} renvUnconfigured rfl rfl,
   resolveIntent_fallback_guarantee.2 {} rfl⟩

/-! ## Claim C4 -/

/-- C4: the fallback parser maps "fill email with john@example.com" to the
fill action with field "email" and value "john@example.com", not to click;
and in general, whenever the fill-X-with-Y rule matches the lower-cased
trimmed input, the parsed action is "fill" - the fill rule is first in the
fixed evaluation order, so no generic keyword rule can preempt it. -/
theorem fallbackParser_fill_precedence :
    (FallbackParser.parse "fill email with john@example.com").action = "fill"
    ∧ (FallbackParser.parse "fill email with john@example.com").parameters
        = [("field", "email"), ("value", "john@example.com")]
    ∧ (FallbackParser.parse "fill email with john@example.com").action ≠ "click"
    ∧ (∀ s : String, fillRuleMatches (normText s) = true →
        (FallbackParser.parse s).action = "fill") := by
  refine ⟨by decide, by decide, by decide, ?_⟩
  intro s h
  have hne : (normText s).isEmpty = false := by
    rcases ht : normText s with _ | ⟨c, cs⟩
    · rw [ht] at h
      simp [fillRuleMatches, startsWithChars] at h
    · rfl
  have hcontains : containsSeq " with ".data ((normText s).drop 5) = true := by
    have h' := h
    rw [fillRuleMatches] at h'
    simp at h'
    exact h'.2
  rcases hsp : splitFirst " with ".data ((normText s).drop 5) with _ | ⟨f, v⟩
  · rw [containsSeq, hsp] at hcontains
    simp at hcontains
  · unfold FallbackParser.parse parseParts
    dsimp only
    rw [hne]
    simp only [Bool.false_eq_true, if_false, h, if_true, hsp]
    simp [canonIntent]
    decide

/-- C4 witness: the precedence consequence applied at another concrete
fill command. -/
theorem fallbackParser_fill_precedence_witness :
    fillRuleMatches (normText "fill name with bob") = true
    ∧ (FallbackParser.parse "fill name with bob").action = "fill" :=
  ⟨by decide, fallbackParser_fill_precedence.2.2.2 "fill name with bob" (by decide)⟩

/-! ## Claim C5 -/

/-- C5: every normalized intent carries a confidence in [0, 1]; a supplied
confidence is clamped into [0, 1]; a missing confidence defaults to 0.8
for AI provenance and to 0.4 for fallback provenance; and every
fallback-parser result stays at or below the 0.4 fallback ceiling. -/
theorem normalize_confidence_policy :
    (∀ (r : RawResponse) (prov : Provenance) (raw : String) (i : Intent),
      normalize r prov raw = some i → 0 ≤ i.confidence ∧ i.confidence ≤ 1)
    ∧ (∀ (p : RawParsed) (prov : Provenance) (raw : String) (c : Rat),
        p.confidence = some c → (canonIntent p prov raw).confidence = clamp01 c)
    ∧ (∀ (p : RawParsed) (raw : String), p.confidence = none →
        (canonIntent p .primary raw).confidence = 4/5
        ∧ (canonIntent p .secondary raw).confidence = 4/5
        ∧ (canonIntent p .fallback raw).confidence = 2/5)
    ∧ (∀ s : String, (FallbackParser.parse s).confidence ≤ 2/5) := by
  refine ⟨?_, ?_, ?_, ?_⟩
  · intro r prov raw i h
    exact (normalize_some_props _ _ _ _ h).2.2
  · intro p prov raw c hc
    simp [canonIntent, hc]
  · intro p raw hc
    simp [canonIntent, hc, defaultConfidence, fallbackConfidence_eq, aiConfidence_eq]
  · intro s
    unfold FallbackParser.parse
    rcases parseParts_confidence s with hc | hc
    · simp [canonIntent, hc, defaultConfidence, fallbackConfidence_eq]
    · simp only [canonIntent, hc]
      have : clamp01 0 = 0 := by
        unfold clamp01
        norm_num
      rw [this]
      norm_num

/-- C5 witness: an over-unit supplied confidence is clamped to 1 and lands
inside [0, 1]. -/
theorem normalize_confidence_policy_witness :
    normalize (.structured { action := "click", confidence := some 5 }) .primary "x"
      = some { action := "click", target := none, parameters := [],
               confidence := 1, providerUsed := "primary", rawText := "x" }
    ∧ (0 : Rat) ≤ (1 : Rat) ∧ (1 : Rat) ≤ (1 : Rat) :=
  ⟨by decide,
   normalize_confidence_policy.1
     (.structured { action := "click", confidence := some 5 }) .primary "x"
     { action := "click", target := none, parameters := [],
       confidence := 1, providerUsed := "primary", rawText := "x" }
     (by decide)⟩

/-! ## Claim C3 -/

/-- Failure of the primary stage in any of the covered senses: a
classified provider error (timeout included) or a response the normalizer
rejects. -/
def primaryAttemptFails (renv : ResolverEnv) (s : String) : Prop :=
  (∃ e, renv.primaryOutcome = .failure e)
  ∨ (∃ r, renv.primaryOutcome = .success r ∧ normalize r .primary s = none)

/-- C3: with the primary provider configured but failing (provider error,
timeout, or normalization failure) and the secondary configured and
succeeding with a response that normalizes, the resolver reports
providerUsed "secondary", and its trace is exactly one primary attempt
followed by one secondary attempt - single attempt per provider, strict
priority order, no retry. -/
theorem resolveIntent_priority_secondary (s : String) (ctx : Context)
    (renv : ResolverEnv)
    (hp : renv.primary.credential.isSome = true)
    (hpf : primaryAttemptFails renv s)
    (hsc : renv.secondary.credential.isSome = true)
    (hss : ∃ r, renv.secondaryOutcome = .success r
           ∧ (normalize r .secondary s).isSome = true) :
    (resolveIntent s ctx renv).1.providerUsed = "secondary"
    ∧ (resolveIntent s ctx renv).2 = ["primary", "secondary"] := by
  have h1 : attemptProvider renv.primary renv.primaryOutcome .primary s = none := by
    unfold attemptProvider
    rcases hpf with ⟨e, he⟩ | ⟨r, hr, hn⟩
    · simp [hp, he]
    · simp [hp, hr, hn]
  obtain ⟨r, hr, hsome⟩ := hss
  rcases hv : normalize r .secondary s with _ | i
  · rw [hv] at hsome
    simp at hsome
  · have h2 : attemptProvider renv.secondary renv.secondaryOutcome .secondary s
        = some i := by
      unfold attemptProvider
      simp [hsc, hr, hv]
    have hpu : i.providerUsed = "secondary" :=
      (normalize_some_props _ _ _ _ hv).2.1
    constructor
    · simp [resolveIntent, h1, h2, hp, hsc, hpu]
    · simp [resolveIntent, h1, h2, hp, hsc]

/-- Oracle for the C3 witness: primary configured but timing out,
secondary configured and answering with a decodable click intent. -/
def renvPrimaryDown : ResolverEnv :=
  { primary := { credential := some "gsk_primary_key" }
    secondary := { credential := some "sk_secondary_key" }
    primaryOutcome := .failure .timeout
    secondaryOutcome := .success (.structured { action := "click" }) }

/-- C3 witness: the theorem applied to the concrete two-provider oracle. -/
theorem resolveIntent_priority_secondary_witness :
    renvPrimaryDown.primary.credential.isSome = true
    ∧ primaryAttemptFails renvPrimaryDown "click the button"
    ∧ renvPrimaryDown.secondary.credential.isSome = true
    ∧ (resolveIntent "click the button" {} renvPrimaryDown).1.providerUsed = "secondary"
    ∧ (resolveIntent "click the button" {} renvPrimaryDown).2 = ["primary", "secondary"] := by
  refine ⟨rfl, Or.inl ⟨.timeout, rfl⟩, rfl, ?_⟩
  have := resolveIntent_priority_secondary "click the button" {} renvPrimaryDown
    rfl (Or.inl ⟨.timeout, rfl⟩) rfl ⟨.structured { action := "click" }, rfl, by decide⟩
  exact this

/-! ## Claim C6 -/

/-- C6: a provider appears in the attempt trace only when its credential
is present; with the credential absent the stage is skipped outright - the
oracle outcome of the skipped provider cannot influence the result, which
is still an ordinary Intent, not an error; and in the /health/api handler
the Groq test call is made exactly when the Groq key is configured. -/
theorem provider_credential_gates_calls :
    (∀ (s : String) (ctx : Context) (renv : ResolverEnv),
      "primary" ∈ (resolveIntent s ctx renv).2 → renv.primary.credential.isSome = true)
    ∧ (∀ (s : String) (ctx : Context) (renv : ResolverEnv),
      "secondary" ∈ (resolveIntent s ctx renv).2 → renv.secondary.credential.isSome = true)
    ∧ (∀ (s : String) (ctx : Context) (renv : ResolverEnv) (o : ProviderOutcome),
        renv.primary.credential = none →
        resolveIntent s ctx { renv with primaryOutcome := o } = resolveIntent s ctx renv)
    ∧ (∀ (s : String) (ctx : Context) (renv : ResolverEnv) (o : ProviderOutcome),
        renv.secondary.credential = none →
        resolveIntent s ctx { renv with secondaryOutcome := o } = resolveIntent s ctx renv)
    ∧ (∀ (c : Config) (oc : Except String Unit),
        (healthApiHandler c oc).groqCalled = true ↔ hasGroqApiKey c = true) := by
  refine ⟨?_, ?_, ?_, ?_, ?_⟩
  · intro s ctx renv hmem
    by_cases hp : renv.primary.credential.isSome = true
    · exact hp
    · exfalso
      have hpa : attemptProvider renv.primary renv.primaryOutcome .primary s = none := by
        unfold attemptProvider
        simp [hp]
      rcases h2 : attemptProvider renv.secondary renv.secondaryOutcome .secondary s with _ | i
      all_goals by_cases hsc : renv.secondary.credential.isSome = true <;>
        simp [resolveIntent, hpa, h2, hp, hsc] at hmem
  · intro s ctx renv hmem
    by_cases hsc : renv.secondary.credential.isSome = true
    · exact hsc
    · exfalso
      have hsa : attemptProvider renv.secondary renv.secondaryOutcome .secondary s = none := by
        unfold attemptProvider
        simp [hsc]
      rcases h1 : attemptProvider renv.primary renv.primaryOutcome .primary s with _ | i
      all_goals by_cases hp : renv.primary.credential.isSome = true <;>
        simp [resolveIntent, hsa, h1, hp, hsc] at hmem
  · intro s ctx renv o h
    have : renv.primary.credential.isSome = false := by simp [h]
    simp [resolveIntent, attemptProvider, this]
  · intro s ctx renv o h
    have : renv.secondary.credential.isSome = false := by simp [h]
    simp [resolveIntent, attemptProvider, this]
  · intro c oc
    by_cases h : hasGroqApiKey c = true
    · rcases oc with u | m <;> simp [healthApiHandler, h]
    · simp [healthApiHandler, h]

/-- Oracle for the C6 witness: only the secondary provider holds a
credential, yet the primary oracle outcome is a success. -/
def renvNoPrimaryCred : ResolverEnv :=
  { primary := { credential := none }
    secondary := { credential := some "sk_secondary_key" }
    primaryOutcome := .success (.structured { action := "click" })
    secondaryOutcome := .failure .serverError }

/-- C6 witness: with no primary credential, swapping the primary oracle
outcome leaves the resolution untouched. -/
theorem provider_credential_gates_calls_witness :
    renvNoPrimaryCred.primary.credential = none
    ∧ resolveIntent "hello there" {} { renvNoPrimaryCred with primaryOutcome := .failure .timeout }
        = resolveIntent "hello there" {} renvNoPrimaryCred :=
  ⟨rfl, provider_credential_gates_calls.2.2.1 "hello there" {} renvNoPrimaryCred
    (.failure .timeout) rfl⟩

/-! ## Claim C7 -/

/-- C7: the configuration is constructed at most once - if the first
getConfig call succeeded, every later call returns the same configuration
value with the cache unchanged, for any later state of the process
environment, so the environment is read exactly once and nothing observed
through getConfig ever changes afterwards. -/
theorem getConfig_reads_once (e₁ e₂ : Env) (c : Config) (st : Option Config)
    (h : getConfig none e₁ = .ok (c, st)) :
    st = some c ∧ getConfig st e₂ = .ok (c, st) := by
  unfold getConfig at h
  rcases hm : mkConfig e₁ with m | c₀
  · rw [hm] at h
    exact absurd h (by simp)
  · rw [hm] at h
    obtain ⟨hc, hst⟩ : c₀ = c ∧ some c₀ = st := by simpa using h
    subst hc
    subst hst
    exact ⟨rfl, rfl⟩

/-- Environment for the C7 witness: a well-formed Groq key, nothing else. -/
def envOk : Env := { GROQ_API_KEY := some "gsk_abcdefghijklmnopqrs" }

/-- C7 witness: concrete first call, then a second call under a different
(empty) environment returning the identical configuration. -/
theorem getConfig_reads_once_witness :
    getConfig none envOk = .ok (loadConfiguration envOk, some (loadConfiguration envOk))
    ∧ getConfig (some (loadConfiguration envOk)) {}
        = .ok (loadConfiguration envOk, some (loadConfiguration envOk)) :=
  ⟨rfl, (getConfig_reads_once envOk {} (loadConfiguration envOk)
    (some (loadConfiguration envOk)) rfl).2⟩

/-! ## Claim C8 -/

/-- PORT acceptance of the format check: `parseInt(value)` yields a number
inside [1, 65535]. -/
def portInRange (value : String) : Bool :=
  match jsParseInt value with
  | some p => decide (1 ≤ p) && decide (p ≤ 65535)
  | none => false

/-- Formalisation following the words of claim C8: construction throws iff
GROQ_API_KEY is absent or blank, or present but shorter than 20
characters, or PORT is set to a value that does not parse (via the parseInt
of the source) to an integer between 1 and 65535. "Set" is read literally:
the variable is defined, whatever its value. -/
def c8ClaimedThrowCondition (e : Env) : Bool :=
  (e.GROQ_API_KEY.isNone || jsBlank (e.GROQ_API_KEY.getD ""))
  || (e.GROQ_API_KEY.isSome && decide ((e.GROQ_API_KEY.getD "").length < 20))
  || (e.PORT.isSome && !(portInRange (e.PORT.getD "")))

/-- Environment refuting claim C8 as stated: a well-formed Groq key and
PORT set to the empty string. -/
def c8Env : Env :=
  { GROQ_API_KEY := some "gsk_abcdefghijklmnopqrs", PORT := some "" }

/-- C8 counterexample: with PORT set to the empty string (which parses to
no integer at all), the claimed condition demands a ConfigurationError,
but validateEnvironment treats a blank value as missing-with-default and
construction succeeds. -/
theorem c8_counterexample :
    c8ClaimedThrowCondition c8Env = true ∧ (mkConfig c8Env).isOk = true :=
  ⟨by decide, by decide⟩

/-- The port format check succeeds exactly on in-range ports. -/
theorem portFormatCheck_isOk (v : String) :
    (portFormatCheck v).isOk = portInRange v := by
  unfold portFormatCheck portInRange
  rcases h : jsParseInt v with _ | p
  · simp [Except.isOk, Except.toBool]
  · simp only []
    by_cases hp : p < 1 ∨ p > 65535
    · rw [if_pos hp]
      rcases hp with h1 | h1
      · have hx : ¬ (1 ≤ p) := by omega
        simp [Except.isOk, Except.toBool, hx]
      · have hx : ¬ (p ≤ 65535) := by omega
        simp [Except.isOk, Except.toBool, hx]
    · rw [if_neg hp]
      push_neg at hp
      simp [Except.isOk, Except.toBool, hp.1, hp.2]

/-- Construction succeeds exactly when validation does. -/
theorem mkConfig_isOk (e : Env) :
    (mkConfig e).isOk = (validateEnvironment e).isOk := by
  unfold mkConfig
  rcases h : validateEnvironment e with m | u
  · rfl
  · cases u
    rfl

/-- C8 amended: constructing the Config object throws a ConfigurationError
if and only if GROQ_API_KEY is absent or blank, or GROQ_API_KEY is
provided (non-blank) but shorter than 20 characters, or PORT is set to a
non-blank value that parseInt does not take to an integer between 1 and
65535; every other anomaly only warns and construction succeeds. -/
theorem config_construction_error_iff (e : Env) :
    (mkConfig e).isOk = false ↔
      (envVarPresent e.GROQ_API_KEY = false
       ∨ (envVarPresent e.GROQ_API_KEY = true
          ∧ (e.GROQ_API_KEY.getD "").length < 20)
       ∨ (envVarPresent e.PORT = true
          ∧ portInRange (e.PORT.getD "") = false)) := by
  rw [mkConfig_isOk]
  unfold validateEnvironment
  by_cases hG : envVarPresent e.GROQ_API_KEY = true
  · rw [if_pos hG]
    by_cases hL : (e.GROQ_API_KEY.getD "").length < 20
    · have hgc : groqFormatCheck (e.GROQ_API_KEY.getD "")
          = .error "GROQ_API_KEY appears to be too short. Please verify your API key." := by
        unfold groqFormatCheck
        rw [if_pos hL]
      rw [hgc]
      simp [Except.isOk, Except.toBool, hG, hL]
    · have hgc : groqFormatCheck (e.GROQ_API_KEY.getD "") = .ok () := by
        unfold groqFormatCheck
        rw [if_neg hL]
      rw [hgc]
      by_cases hP : envVarPresent e.PORT = true
      · rw [if_pos hP]
        rcases hpc : portFormatCheck (e.PORT.getD "") with m | u
        · have hpr : portInRange (e.PORT.getD "") = false := by
            rw [← portFormatCheck_isOk, hpc]
            rfl
          simp [Except.isOk, Except.toBool, hG, hL, hP, hpr]
        · cases u
          have hpr : portInRange (e.PORT.getD "") = true := by
            rw [← portFormatCheck_isOk, hpc]
            rfl
          simp [Except.isOk, Except.toBool, hG, hL, hP, hpr]
      · rw [if_neg hP, if_pos hG]
        simp [Except.isOk, Except.toBool, hG, hL, hP]
  · rw [if_neg hG]
    have hG' : envVarPresent e.GROQ_API_KEY = false := by
      simpa using hG
    rcases hpc : (if envVarPresent e.PORT then portFormatCheck (e.PORT.getD "")
        else Except.ok ()) with m | u
    · simp [Except.isOk, Except.toBool, hG']
    · cases u
      simp [Except.isOk, Except.toBool, hG']

/-! ## Claim C9 -/

/-- The key transformation getSanitizedConfig applies to each apiKey
field: truthy key material becomes the redaction constant, falsy values
(null or empty) pass through. -/
def sanitizeKey (v : Option String) : Option String :=
  if jsTruthyOpt v then some redactedMark else v

/-- A sanitized apiKey field can only be null, empty, or the redaction
constant - never nonempty key material. -/
def redactMarker (v : Option String) : Prop :=
  v = none ∨ v = some "" ∨ v = some redactedMark

/-- Two apiKey values that are either both truthy or identical; sanitized
outputs cannot distinguish further than this. -/
def keyAgree (a b : Option String) : Prop :=
  (jsTruthyOpt a = true ∧ jsTruthyOpt b = true) ∨ a = b

/-- Sanitization cannot tell agreeing keys apart. -/
theorem keyAgree_sanitizeKey (a b : Option String) (h : keyAgree a b) :
    sanitizeKey a = sanitizeKey b := by
  rcases h with ⟨h1, h2⟩ | rfl
  · simp [sanitizeKey, h1, h2]
  · rfl

/-- Every sanitized key lands in the marker set. -/
theorem redactMarker_sanitizeKey (v : Option String) :
    redactMarker (sanitizeKey v) := by
  rcases v with _ | s
  · left
    rfl
  · by_cases hs : s = ""
    · subst hs
      right; left
      rfl
    · right; right
      simp [sanitizeKey, jsTruthyOpt, hs]

/-- C9: sanitization is the identity outside the four apiKey fields; each
apiKey field is redacted exactly when truthy and passed through otherwise;
a sanitized apiKey is never nonempty key material other than the redaction
constant; and two configurations agreeing outside the keys, with agreeing
key presence, sanitize to identical outputs - the key material itself
cannot leak into the difference. -/
theorem getSanitizedConfig_redaction :
    (∀ c : Config, stripKeys (getSanitizedConfig c) = stripKeys c)
    ∧ (∀ c : Config,
        (getSanitizedConfig c).groq.apiKey = sanitizeKey c.groq.apiKey
        ∧ (getSanitizedConfig c).openai.apiKey = sanitizeKey c.openai.apiKey
        ∧ (getSanitizedConfig c).elevenlabs.apiKey = sanitizeKey c.elevenlabs.apiKey
        ∧ (getSanitizedConfig c).webSearch.apiKey = sanitizeKey c.webSearch.apiKey)
    ∧ (∀ c : Config, redactMarker ((getSanitizedConfig c).groq.apiKey)
        ∧ redactMarker ((getSanitizedConfig c).openai.apiKey)
        ∧ redactMarker ((getSanitizedConfig c).elevenlabs.apiKey)
        ∧ redactMarker ((getSanitizedConfig c).webSearch.apiKey))
    ∧ (∀ c₁ c₂ : Config, stripKeys c₁ = stripKeys c₂ →
        keyAgree c₁.groq.apiKey c₂.groq.apiKey →
        keyAgree c₁.openai.apiKey c₂.openai.apiKey →
        keyAgree c₁.elevenlabs.apiKey c₂.elevenlabs.apiKey →
        keyAgree c₁.webSearch.apiKey c₂.webSearch.apiKey →
        getSanitizedConfig c₁ = getSanitizedConfig c₂) := by
  refine ⟨?_, ?_, ?_, ?_⟩
  · intro c
    rfl
  · intro c
    exact ⟨rfl, rfl, rfl, rfl⟩
  · intro c
    exact ⟨redactMarker_sanitizeKey _, redactMarker_sanitizeKey _,
      redactMarker_sanitizeKey _, redactMarker_sanitizeKey _⟩
  · intro c₁ c₂ hstrip k1 k2 k3 k4
    obtain ⟨⟨a1, b1, m1, t1⟩, ⟨a2, b2, m2, t2⟩, ⟨a3, b3, v3, t3⟩, ⟨a4, p4, t4⟩, s5, l6, f7⟩ := c₁
    obtain ⟨⟨a1', b1', m1', t1'⟩, ⟨a2', b2', m2', t2'⟩, ⟨a3', b3', v3', t3'⟩, ⟨a4', p4', t4'⟩, s5', l6', f7'⟩ := c₂
    simp only [stripKeys, Config.mk.injEq, GroqSection.mk.injEq,
      OpenAiSection.mk.injEq, ElevenLabsSection.mk.injEq,
      WebSearchSection.mk.injEq, true_and, and_true] at hstrip
    obtain ⟨⟨hb1, hm1, ht1⟩, ⟨hb2, hm2, ht2⟩, ⟨hb3, hv3, ht3⟩, ⟨hp4, ht4⟩, hs5, hl6, hf7⟩ := hstrip
    subst hb1; subst hm1; subst ht1
    subst hb2; subst hm2; subst ht2
    subst hb3; subst hv3; subst ht3
    subst hp4; subst ht4
    subst hs5; subst hl6; subst hf7
    have e1 : sanitizeKey a1 = sanitizeKey a1' := keyAgree_sanitizeKey _ _ k1
    have e2 : sanitizeKey a2 = sanitizeKey a2' := keyAgree_sanitizeKey _ _ k2
    have e3 : sanitizeKey a3 = sanitizeKey a3' := keyAgree_sanitizeKey _ _ k3
    have e4 : sanitizeKey a4 = sanitizeKey a4' := keyAgree_sanitizeKey _ _ k4
    simp only [sanitizeKey] at e1 e2 e3 e4
    simp only [getSanitizedConfig]
    rw [e1, e2, e3, e4]

/-- A second configuration for the C9 witness, differing from the first
only in the Groq key material. -/
def envOkOther : Env := { GROQ_API_KEY := some "gsk_zyxwvutsrqponmlkjihg" }

/-- C9 witness: two configurations with different Groq keys sanitize to
the identical output. -/
theorem getSanitizedConfig_redaction_witness :
    stripKeys (loadConfiguration envOk) = stripKeys (loadConfiguration envOkOther)
    ∧ getSanitizedConfig (loadConfiguration envOk)
        = getSanitizedConfig (loadConfiguration envOkOther) :=
  ⟨by decide,
   getSanitizedConfig_redaction.2.2.2 (loadConfiguration envOk) (loadConfiguration envOkOther)
     (by decide) (Or.inl (by decide)) (Or.inr (by decide))
     (Or.inr (by decide)) (Or.inr (by decide))⟩

/-! ## Claim C10 -/

/-- C10: the GET /health handler answers 200 with body status "healthy"
for every configuration - credentials only vary the informational fields -
so the Docker healthcheck decision, which exits 0 exactly on a 200
"healthy" response, passes whenever the server answers. -/
theorem health_endpoint_always_healthy (c : Config) :
    (healthHandler c).httpStatus = 200
    ∧ (healthHandler c).status = "healthy"
    ∧ healthcheckExitCode (healthHandler c).httpStatus (healthHandler c).status = 0 := by
  refine ⟨rfl, rfl, ?_⟩
  simp [healthHandler, healthcheckExitCode]

end VoiceWeb
